import Mathlib

/-!
Shallow embedding of `src/mirrorfs.c`, the FUSE mirror filesystem dispatcher.

Every `mirror_*` handler in the source wraps exactly one underlying operating
system call.  The operating system is an external collaborator, so each
embedded handler takes the outcome of its underlying call as parameters:
`r` is the value the call returned, and `e` is the value of `errno` after the
call (on success `errno` is unchanged, so `e` then stands for whatever stale
value the thread's `errno` held).  Where a claim depends on the semantics of
the underlying POSIX call itself (readlink truncation, creat flags, pwrite
positioning, utimensat path resolution), that call is modelled in a separate
definition whose doc comment starts `Modelled from POSIX`.

C's `uint64_t` and `int` conversions are made explicit with `uint64OfInt`
and `int32OfInt` (two's-complement wrapping on `Int`).
-/

namespace MirrorFS

/-- C conversion of a (signed) value to `uint64_t`: reduction modulo 2^64.
Used for the `fi->fh = open(...)` / `fi->fh = creat(...)` assignments, where
`fi->fh` is a `uint64_t` and the right-hand side an `int`. -/
def uint64OfInt (x : Int) : Nat := (x % (2 ^ 64 : Int)).toNat

/-- C conversion of a signed 64-bit value (`ssize_t`) to `int`:
two's-complement wrapping into `[-2^31, 2^31)`.  Used for the
`(int)bytes_read` and `(int)written` casts. -/
def int32OfInt (x : Int) : Int := (x + 2 ^ 31) % 2 ^ 32 - 2 ^ 31

/-- The mutable per-session record the bridge framework hands each handler
(`struct fuse_file_info`): it stores the one opaque handle `fh`. -/
structure Session where
  fh : Nat
  deriving DecidableEq, Repr

/-! ## Path-based node and metadata handlers

Each is the literal translation of the corresponding `mirror_*` function:
`if (call(...) == -1) return -errno; return 0;` with the underlying call's
result `r` and the post-call `errno` value `e` taken as parameters. -/

/-- `mirror_access`: checks if the file can be accessed with the given mode. -/
def mirror_access (_path : String) (_mode : Nat) (r : Int) (e : Nat) : Int :=
  if r = -1 then -(e : Int) else 0

/-- `mirror_getattr`: gets file attributes via `stat`. -/
def mirror_getattr (_path : String) (r : Int) (e : Nat) : Int :=
  if r = -1 then -(e : Int) else 0

/-- `mirror_fgetattr`: gets attributes of an open file via `fstat(fi->fh)`. -/
def mirror_fgetattr (_fh : Nat) (r : Int) (e : Nat) : Int :=
  if r = -1 then -(e : Int) else 0

/-- `mirror_readlink`: forwards `readlink(path, buf, bufsize)`, returning
`-errno` when it returned -1 and 0 otherwise. -/
def mirror_readlink (_path : String) (_bufsize : Nat) (r : Int) (e : Nat) : Int :=
  if r = -1 then -(e : Int) else 0

/-- `mirror_mknod`: creates a file node. -/
def mirror_mknod (_path : String) (_mode : Nat) (_dev : Nat) (r : Int) (e : Nat) : Int :=
  if r = -1 then -(e : Int) else 0

/-- `mirror_mkdir`: creates a directory. -/
def mirror_mkdir (_path : String) (_mode : Nat) (r : Int) (e : Nat) : Int :=
  if r = -1 then -(e : Int) else 0

/-- `mirror_unlink`: removes a file. -/
def mirror_unlink (_path : String) (r : Int) (e : Nat) : Int :=
  if r = -1 then -(e : Int) else 0

/-- `mirror_rmdir`: removes a directory. -/
def mirror_rmdir (_path : String) (r : Int) (e : Nat) : Int :=
  if r = -1 then -(e : Int) else 0

/-- `mirror_link`: creates a hard link. -/
def mirror_link (_oldpath _newpath : String) (r : Int) (e : Nat) : Int :=
  if r = -1 then -(e : Int) else 0

/-- `mirror_symlink`: prints a notice, then creates a symbolic link.
The first component is the text printed to standard output. -/
def mirror_symlink (target linkpath : String) (r : Int) (e : Nat) : String × Int :=
  ("Symlink '" ++ target ++ "' -> '" ++ linkpath ++ "'",
   if r = -1 then -(e : Int) else 0)

/-- `mirror_rename`: changes the name/location of a file. -/
def mirror_rename (_oldpath _newpath : String) (r : Int) (e : Nat) : Int :=
  if r = -1 then -(e : Int) else 0

/-- `mirror_chmod`: changes file permissions. -/
def mirror_chmod (_path : String) (_mode : Nat) (r : Int) (e : Nat) : Int :=
  if r = -1 then -(e : Int) else 0

/-- `mirror_chown`: changes file ownership. -/
def mirror_chown (_path : String) (_user _group : Nat) (r : Int) (e : Nat) : Int :=
  if r = -1 then -(e : Int) else 0

/-- `mirror_truncate`: truncates a file (by path) to the given length. -/
def mirror_truncate (_path : String) (_length : Int) (r : Int) (e : Nat) : Int :=
  if r = -1 then -(e : Int) else 0

/-- `mirror_ftruncate`: truncates an open file (`ftruncate(fi->fh, length)`). -/
def mirror_ftruncate (_fh : Nat) (_length : Int) (r : Int) (e : Nat) : Int :=
  if r = -1 then -(e : Int) else 0

/-- `mirror_setxattr`: sets an extended attribute. -/
def mirror_setxattr (_path _name _value : String) (_flags : Nat) (r : Int) (e : Nat) : Int :=
  if r = -1 then -(e : Int) else 0

/-- `mirror_removexattr`: removes an extended attribute. -/
def mirror_removexattr (_path _name : String) (r : Int) (e : Nat) : Int :=
  if r = -1 then -(e : Int) else 0

/-- `mirror_statfs`: gets file system statistics via `statvfs`. -/
def mirror_statfs (_path : String) (r : Int) (e : Nat) : Int :=
  if r = -1 then -(e : Int) else 0

/-- C2: every path-based node/metadata handler returns 0 when its underlying
call succeeds (returns 0) and exactly the negated `errno` when it fails
(returns -1), with no other translation of the error code. -/
theorem pathops_result_convention (p q v : String) (m d u g fl : Nat)
    (len : Int) (e : Nat) :
    (mirror_access p m 0 e = 0 ∧ mirror_access p m (-1) e = -(e : Int)) ∧
    (mirror_getattr p 0 e = 0 ∧ mirror_getattr p (-1) e = -(e : Int)) ∧
    (mirror_mknod p m d 0 e = 0 ∧ mirror_mknod p m d (-1) e = -(e : Int)) ∧
    (mirror_mkdir p m 0 e = 0 ∧ mirror_mkdir p m (-1) e = -(e : Int)) ∧
    (mirror_unlink p 0 e = 0 ∧ mirror_unlink p (-1) e = -(e : Int)) ∧
    (mirror_rmdir p 0 e = 0 ∧ mirror_rmdir p (-1) e = -(e : Int)) ∧
    (mirror_link p q 0 e = 0 ∧ mirror_link p q (-1) e = -(e : Int)) ∧
    ((mirror_symlink p q 0 e).2 = 0 ∧ (mirror_symlink p q (-1) e).2 = -(e : Int)) ∧
    (mirror_rename p q 0 e = 0 ∧ mirror_rename p q (-1) e = -(e : Int)) ∧
    (mirror_chmod p m 0 e = 0 ∧ mirror_chmod p m (-1) e = -(e : Int)) ∧
    (mirror_chown p u g 0 e = 0 ∧ mirror_chown p u g (-1) e = -(e : Int)) ∧
    (mirror_truncate p len 0 e = 0 ∧ mirror_truncate p len (-1) e = -(e : Int)) ∧
    (mirror_setxattr p q v fl 0 e = 0 ∧ mirror_setxattr p q v fl (-1) e = -(e : Int)) ∧
    (mirror_removexattr p q 0 e = 0 ∧ mirror_removexattr p q (-1) e = -(e : Int)) ∧
    (mirror_statfs p 0 e = 0 ∧ mirror_statfs p (-1) e = -(e : Int)) := by
  simp [mirror_access, mirror_getattr, mirror_mknod, mirror_mkdir, mirror_unlink,
    mirror_rmdir, mirror_link, mirror_symlink, mirror_rename, mirror_chmod,
    mirror_chown, mirror_truncate, mirror_setxattr, mirror_removexattr, mirror_statfs]

/-! ## File session lifecycle and data transfer -/

/-- `mirror_open`: translation of
`if ((fi->fh = open(path, fi->flags)) != 0) return -errno; return 0;`.
The descriptor (or -1) returned by `open` is assigned to the `uint64_t`
field `fh` first; the branch then tests that stored value against 0,
not against -1. -/
def mirror_open (_path : String) (_flags : Nat) (s : Session) (r : Int) (e : Nat) :
    Session × Int :=
  let s' : Session := { s with fh := uint64OfInt r }
  if s'.fh ≠ 0 then (s', -(e : Int)) else (s', 0)

/-- `mirror_create`: translation of
`if ((fi->fh = creat(path, mode)) == -1) return -errno; return 0;`.
The comparison is between the `uint64_t` field and `-1` converted to
`uint64_t`, i.e. `2^64 - 1`. -/
def mirror_create (_path : String) (_mode : Nat) (s : Session) (r : Int) (e : Nat) :
    Session × Int :=
  let s' : Session := { s with fh := uint64OfInt r }
  if s'.fh = uint64OfInt (-1) then (s', -(e : Int)) else (s', 0)

/-- The observable behaviour of `mirror_release`: which descriptor was passed
to the underlying `close`, and the value returned to the framework. -/
structure ReleaseResult where
  closedFh : Nat
  ret : Int
  deriving DecidableEq, Repr

/-- `mirror_release`: translation of `close(fi->fh); return 0;` — the
underlying `close` is invoked on the session's handle and its result
`_closeRes` is never examined. -/
def mirror_release (_path : String) (s : Session) (_closeRes : Int) : ReleaseResult :=
  { closedFh := s.fh, ret := 0 }

/-- `mirror_read`: translation of
`ssize_t bytes_read = pread(fi->fh, buf, size, offset);
 if (bytes_read == -1) return 0; return (int)bytes_read;`. -/
def mirror_read (_path : String) (_size _offset : Nat) (s : Session) (preadRes : Int) : Int :=
  let _ := s.fh
  if preadRes = -1 then 0 else int32OfInt preadRes

/-- `mirror_write`: translation of
`if ((written = pwrite(fi->fh, buf, size, offset)) == -1) return -errno;
 return (int)written;`. -/
def mirror_write (_path : String) (_size _offset : Nat) (s : Session) (pwriteRes : Int)
    (e : Nat) : Int :=
  let _ := s.fh
  if pwriteRes = -1 then -(e : Int) else int32OfInt pwriteRes

/-- A regular file as the positioned-I/O model sees it: its byte content and
the shared cursor (file offset) of the open description. -/
structure PFile where
  content : List Char
  cursor : Nat
  deriving DecidableEq, Repr

/-- Content after writing `buf` at position `offset`, zero-padding any gap
between the old end of file and `offset`. -/
def spliceAt (content buf : List Char) (offset : Nat) : List Char :=
  let padded := content ++ List.replicate (offset - content.length) (Char.ofNat 0)
  padded.take offset ++ buf ++ padded.drop (offset + buf.length)

/-- Modelled from POSIX pwrite(2): the write happens at the explicit
`offset`; the shared file cursor is neither consulted nor moved; the return
value is the number of bytes written. -/
def pwriteOS (f : PFile) (buf : List Char) (offset : Nat) : PFile × Int :=
  ({ content := spliceAt f.content buf offset, cursor := f.cursor }, (buf.length : Int))

/-- C1: evaluation of `mirror_open` at an input where the underlying `open`
succeeds: descriptor 3 with the thread's stale `errno` holding 2 (ENOENT).
The handler stores the descriptor but returns -2 instead of the 0 the
result convention requires, because its branch tests the stored handle
against 0 instead of testing the `open` result against -1. -/
theorem mirror_open_success_returns_stale_errno :
    mirror_open "/tmp/f" 0 ⟨0⟩ 3 2 = (⟨3⟩, -2) := by
  decide

/-- C3: `mirror_read` returns the byte count `r` whenever the underlying
`pread` succeeds (`0 ≤ r`, in particular 0 at end-of-stream), returns 0 —
never a negative value — when `pread` fails (`r = -1`), and its result on
failure coincides with its result at end-of-stream, so the caller cannot
tell the two apart.  `r < 2^31` reflects that `pread` transfers at most the
requested size, capped well below `INT_MAX` by the kernel, so the
`(int)bytes_read` cast does not wrap. -/
theorem mirror_read_error_collapses_to_zero (p : String) (size offset : Nat)
    (s : Session) (r : Int) (h1 : -1 ≤ r) (h2 : r < 2 ^ 31) :
    0 ≤ mirror_read p size offset s r ∧
    (r = -1 → mirror_read p size offset s r = 0) ∧
    (0 ≤ r → mirror_read p size offset s r = r) ∧
    mirror_read p size offset s (-1) = mirror_read p size offset s 0 := by
  simp only [mirror_read, int32OfInt]
  refine ⟨?_, ?_, ?_, by norm_num⟩
  · split
    · exact le_refl 0
    · omega
  · intro h; simp [h]
  · intro h; rw [if_neg (by omega)]; omega

/-- Witness for C3 at `r = 5`. -/
theorem mirror_read_error_collapses_to_zero_witness :
    (-1 : Int) ≤ 5 ∧ (5 : Int) < 2 ^ 31 ∧
    (0 ≤ mirror_read "/f" 10 0 ⟨3⟩ 5 ∧
     ((5 : Int) = -1 → mirror_read "/f" 10 0 ⟨3⟩ 5 = 0) ∧
     ((0 : Int) ≤ 5 → mirror_read "/f" 10 0 ⟨3⟩ 5 = 5) ∧
     mirror_read "/f" 10 0 ⟨3⟩ (-1) = mirror_read "/f" 10 0 ⟨3⟩ 0) :=
  ⟨by decide, by decide,
   mirror_read_error_collapses_to_zero "/f" 10 0 ⟨3⟩ 5 (by decide) (by decide)⟩

/-- C4: `mirror_release` passes the session's handle to the underlying
`close` and returns 0 no matter what `close` returned: its result is
identical for any two outcomes of the underlying close. -/
theorem mirror_release_discards_close_result (p : String) (s : Session)
    (closeRes closeRes' : Int) :
    (mirror_release p s closeRes).closedFh = s.fh ∧
    (mirror_release p s closeRes).ret = 0 ∧
    mirror_release p s closeRes = mirror_release p s closeRes' := by
  exact ⟨rfl, rfl, rfl⟩

/-- C7: `mirror_write` follows the general signed-result convention — the
negated `errno` on failure, the byte count on success — and the underlying
`pwrite` is positioned: it writes at the explicit offset and leaves the
shared file cursor untouched. -/
theorem mirror_write_result_convention (p : String) (size offset : Nat)
    (s : Session) (e : Nat) (r : Int) (f : PFile) (buf : List Char)
    (h1 : -1 ≤ r) (h2 : r < 2 ^ 31) (h3 : buf.length < 2 ^ 31) :
    (r = -1 → mirror_write p size offset s r e = -(e : Int)) ∧
    (0 ≤ r → mirror_write p size offset s r e = r) ∧
    (pwriteOS f buf offset).1.cursor = f.cursor ∧
    (pwriteOS f buf offset).1.content = spliceAt f.content buf offset ∧
    mirror_write p buf.length offset s (pwriteOS f buf offset).2 e = buf.length := by
  simp only [mirror_write, int32OfInt, pwriteOS]
  refine ⟨fun h => by simp [h], fun h => ?_, trivial, trivial, ?_⟩
  · rw [if_neg (by omega)]; omega
  · rw [if_neg (by omega)]; omega

/-- Witness for C7 at `r = 4`, `buf = "ab"`, `offset = 1`. -/
theorem mirror_write_result_convention_witness :
    (-1 : Int) ≤ 4 ∧ (4 : Int) < 2 ^ 31 ∧ (['a', 'b'].length < 2 ^ 31) ∧
    (((4 : Int) = -1) → mirror_write "/f" 2 1 ⟨3⟩ 4 13 = -(13 : Int)) ∧
    ((0 : Int) ≤ 4 → mirror_write "/f" 2 1 ⟨3⟩ 4 13 = 4) ∧
    (pwriteOS ⟨['x'], 0⟩ ['a', 'b'] 1).1.cursor = (⟨['x'], 0⟩ : PFile).cursor ∧
    (pwriteOS ⟨['x'], 0⟩ ['a', 'b'] 1).1.content = spliceAt ['x'] ['a', 'b'] 1 ∧
    mirror_write "/f" (['a', 'b'].length) 1 ⟨3⟩ (pwriteOS ⟨['x'], 0⟩ ['a', 'b'] 1).2 13 =
      (['a', 'b'].length : Nat) :=
  ⟨by decide, by decide, by decide,
   (mirror_write_result_convention "/f" 2 1 ⟨3⟩ 13 4 ⟨['x'], 0⟩ ['a', 'b']
     (by decide) (by decide) (by decide)).1,
   (mirror_write_result_convention "/f" 2 1 ⟨3⟩ 13 4 ⟨['x'], 0⟩ ['a', 'b']
     (by decide) (by decide) (by decide)).2.1,
   (mirror_write_result_convention "/f" 2 1 ⟨3⟩ 13 4 ⟨['x'], 0⟩ ['a', 'b']
     (by decide) (by decide) (by decide)).2.2⟩

/-! ## Directory session lifecycle -/

/-- `mirror_opendir`: translation of
`DIR *dir = opendir(path); if (!dir) return -errno;
 fi->fh = (uint64_t)dir; return 0;`.
`dirPtr` is the `DIR*` value returned by the underlying `opendir`
(0 meaning NULL, i.e. failure); on failure `fh` is not written. -/
def mirror_opendir (_path : String) (s : Session) (dirPtr : Nat) (e : Nat) :
    Session × Int :=
  if dirPtr = 0 then (s, -(e : Int)) else ({ s with fh := dirPtr }, 0)

/-- `mirror_releasedir`: translation of
`if (closedir((DIR*)fi->fh) == -1) return -errno; return 0;`. -/
def mirror_releasedir (_path : String) (s : Session) (r : Int) (e : Nat) : Int :=
  let _ := s.fh
  if r = -1 then -(e : Int) else 0

/-- `mirror_readdir`: translation of the loop
`seekdir(dir, offset);
 while ((entry = readdir(dir))) { if (filler(buf, entry->d_name, NULL, entry->d_off)) break; }
 return 0;`.
The directory stream left after `seekdir` is the list of remaining entry
names; `filler` is the caller-supplied emission callback, taking its buffer
state and an entry name and returning the new state and `true` when the
buffer is full.  The middle component of the result records the names the
callback was invoked on, in order; the last component is the returned
value. -/
def mirror_readdir {σ : Type} (filler : σ → String → σ × Bool) :
    σ → List String → σ × List String × Int
  | st, [] => (st, [], 0)
  | st, name :: rest =>
    let fr := filler st name
    if fr.2 then (fr.1, [name], 0)
    else
      let r := mirror_readdir filler fr.1 rest
      (r.1, name :: r.2.1, r.2.2)

theorem mirror_readdir_ret_zero {σ : Type} (filler : σ → String → σ × Bool)
    (st : σ) (es : List String) : (mirror_readdir filler st es).2.2 = 0 := by
  induction es generalizing st with
  | nil => rfl
  | cons n rest ih =>
    simp only [mirror_readdir]
    split
    · rfl
    · simpa using ih _

theorem mirror_readdir_emitted_prefix {σ : Type} (filler : σ → String → σ × Bool)
    (st : σ) (es : List String) : (mirror_readdir filler st es).2.1 <+: es := by
  induction es generalizing st with
  | nil => exact List.prefix_refl _
  | cons n rest ih =>
    simp only [mirror_readdir]
    split
    · exact ⟨rest, rfl⟩
    · obtain ⟨t, ht⟩ := ih (filler st n).1
      exact ⟨t, by simp [ht]⟩

theorem mirror_readdir_emitted_all {σ : Type} (filler : σ → String → σ × Bool)
    (hnf : ∀ s n, (filler s n).2 = false) (st : σ) (es : List String) :
    (mirror_readdir filler st es).2.1 = es := by
  induction es generalizing st with
  | nil => rfl
  | cons n rest ih =>
    simp only [mirror_readdir, hnf]
    simpa using ih _

/-- C5: `mirror_readdir` walks the stream left by `seekdir(dir, offset)`
(the entries of `dir` from position `offset` on) in a single pass: it
returns 0, the names it hands the callback always form a prefix of that
stream (it can stop early only by the callback's "buffer full" signal),
and when the callback never signals full it invokes the callback exactly
once per entry in stream order.  In particular a full listing from offset 0
emits exactly the underlying directory's entry list: the same set of names,
with no duplicates (when the underlying listing has none) and none
missing. -/
theorem mirror_readdir_correct {σ : Type} (filler : σ → String → σ × Bool)
    (st : σ) (dir : List String) (offset : Nat)
    (hnf : ∀ s n, (filler s n).2 = false) :
    (∀ (τ : Type) (g : τ → String → τ × Bool) (s : τ) (es : List String),
        (mirror_readdir g s es).2.2 = 0 ∧ (mirror_readdir g s es).2.1 <+: es) ∧
    (mirror_readdir filler st (dir.drop offset)).2.1 = dir.drop offset ∧
    (mirror_readdir filler st (dir.drop 0)).2.1 = dir ∧
    (dir.Nodup → ((mirror_readdir filler st (dir.drop 0)).2.1).Nodup) ∧
    (∀ x, x ∈ (mirror_readdir filler st (dir.drop 0)).2.1 ↔ x ∈ dir) := by
  have hall := mirror_readdir_emitted_all filler hnf st
  refine ⟨fun τ g s es => ⟨mirror_readdir_ret_zero g s es,
      mirror_readdir_emitted_prefix g s es⟩, hall _, ?_, ?_, ?_⟩
  · simpa using hall dir
  · intro h; rw [List.drop_zero, hall]; exact h
  · intro x; simp [hall]

/-- Witness for C5: a two-entry directory listed from offset 1 with a
callback that never reports a full buffer. -/
theorem mirror_readdir_correct_witness :
    (∀ (u : Unit) (n : String),
      ((fun (u : Unit) (_ : String) => (u, false)) u n).2 = false) ∧
    (∀ (τ : Type) (g : τ → String → τ × Bool) (s : τ) (es : List String),
        (mirror_readdir g s es).2.2 = 0 ∧ (mirror_readdir g s es).2.1 <+: es) ∧
    (mirror_readdir (fun (u : Unit) (_ : String) => (u, false)) ()
        (["a", "b"].drop 1)).2.1 = ["a", "b"].drop 1 ∧
    (mirror_readdir (fun (u : Unit) (_ : String) => (u, false)) ()
        (["a", "b"].drop 0)).2.1 = ["a", "b"] ∧
    ((["a", "b"] : List String).Nodup →
      ((mirror_readdir (fun (u : Unit) (_ : String) => (u, false)) ()
        (["a", "b"].drop 0)).2.1).Nodup) ∧
    (∀ x, x ∈ (mirror_readdir (fun (u : Unit) (_ : String) => (u, false)) ()
        (["a", "b"].drop 0)).2.1 ↔ x ∈ (["a", "b"] : List String)) :=
  ⟨fun _ _ => rfl,
   mirror_readdir_correct (fun (u : Unit) (_ : String) => (u, false)) ()
     ["a", "b"] 1 (fun _ _ => rfl)⟩

/-! ## Link introspection -/

/-- Modelled from POSIX readlink(2), the underlying call of
`mirror_readlink`: if the path is not a symbolic link the call fails with
EINVAL (22); otherwise it places the first `min |target| bufsize`
characters of the link target in the buffer — truncating silently, without
error, when the buffer cannot hold the whole target — and returns that
count.  On success `errno` keeps its prior (stale) value.  The result is
(returned value, errno after the call, buffer contents). -/
def readlinkOS (isSymlink : Bool) (target : List Char) (bufsize : Nat) (stale : Nat) :
    Int × Nat × List Char :=
  if isSymlink then (((min target.length bufsize : Nat) : Int), stale, target.take bufsize)
  else (-1, 22, [])

/-- C6 counterexample: a symbolic link with the six-character target
"abcdef" read through a three-byte buffer.  The underlying `readlink`
truncates and returns 3 — it does not fail — so `mirror_readlink` returns
0, not a negated error code, contradicting the claim that an insufficient
buffer yields a negated error. -/
theorem mirror_readlink_short_buffer_no_error :
    (readlinkOS true ("abcdef".toList) 3 0).1 = 3 ∧
    3 < ("abcdef".toList).length ∧
    (readlinkOS true ("abcdef".toList) 3 0).2.2 = "abc".toList ∧
    mirror_readlink "/lnk" 3 (readlinkOS true ("abcdef".toList) 3 0).1
      (readlinkOS true ("abcdef".toList) 3 0).2.1 = 0 ∧
    ¬ mirror_readlink "/lnk" 3 (readlinkOS true ("abcdef".toList) 3 0).1
      (readlinkOS true ("abcdef".toList) 3 0).2.1 < 0 := by
  decide

/-- C6 amended: `mirror_readlink` places the link target — truncated to the
buffer size — in the buffer and returns a non-negative result (0) whenever
the path is a symbolic link, even when the buffer is insufficient; it
returns a negated error code (-EINVAL = -22) when the path is not a
symbolic link. -/
theorem mirror_readlink_amended (path : String) (target : List Char)
    (bufsize stale : Nat) :
    mirror_readlink path bufsize (readlinkOS false target bufsize stale).1
      (readlinkOS false target bufsize stale).2.1 = -22 ∧
    mirror_readlink path bufsize (readlinkOS true target bufsize stale).1
      (readlinkOS true target bufsize stale).2.1 = 0 ∧
    0 ≤ mirror_readlink path bufsize (readlinkOS true target bufsize stale).1
      (readlinkOS true target bufsize stale).2.1 ∧
    (readlinkOS true target bufsize stale).2.2 = target.take bufsize := by
  refine ⟨by simp [mirror_readlink, readlinkOS], ?_, ?_, by simp [readlinkOS]⟩ <;>
    simp [mirror_readlink, readlinkOS] <;> omega

/-! ## Timestamp mutation -/

def AT_FDCWD : Int := -100

/-- Modelled from POSIX utimensat(2): resolution of the path argument.
When the path is absolute the dirfd argument is ignored and the path
resolves to itself; a relative path resolves against dirfd — the working
directory when dirfd is AT_FDCWD (-100) — and fails (EBADF) when dirfd is
not an open descriptor, as -1 is. -/
def utimensatResolve (dirfd : Int) (cwd path : String) (isAbs : Bool) : Option String :=
  if isAbs then some path
  else if dirfd = AT_FDCWD then some (cwd ++ "/" ++ path)
  else none

/-- What the underlying `utimensat` call received: the resolved node and the
(access, modification) timestamps, each a (seconds, nanoseconds) pair. -/
structure UtimensCall where
  resolved : Option String
  times : (Int × Int) × (Int × Int)
  deriving DecidableEq, Repr

/-- `mirror_utimens`: translation of
`if (utimensat(-1, path, tv, 0) == -1) return -errno; return 0;`
with the call's path resolution modelled by `utimensatResolve` at
dirfd = -1.  `tv` is passed through unmodified; when resolution fails the
call itself fails with EBADF (9), otherwise `r`/`e` are the underlying
call's result and errno. -/
def mirror_utimens (path cwd : String) (isAbs : Bool)
    (tv : (Int × Int) × (Int × Int)) (r : Int) (e : Nat) : UtimensCall × Int :=
  let call : UtimensCall := { resolved := utimensatResolve (-1) cwd path isAbs, times := tv }
  match call.resolved with
  | none => (call, -(9 : Int))
  | some _ => (call, if r = -1 then -(e : Int) else 0)

/-- C8: for an absolute path, `mirror_utimens` resolves the operation
directly against the path (the dirfd of -1 is ignored), passes both
(seconds, nanoseconds) timestamp pairs through unmodified, and returns 0
when the underlying call succeeds and the negated error code when it
fails. -/
theorem mirror_utimens_absolute_direct (path cwd : String)
    (tv : (Int × Int) × (Int × Int)) (r : Int) (e : Nat) :
    (mirror_utimens path cwd true tv r e).1.resolved = some path ∧
    (mirror_utimens path cwd true tv r e).1.times = tv ∧
    (r ≠ -1 → (mirror_utimens path cwd true tv r e).2 = 0) ∧
    (mirror_utimens path cwd true tv (-1) e).2 = -(e : Int) := by
  refine ⟨rfl, rfl, fun h => ?_, by simp [mirror_utimens, utimensatResolve]⟩
  simp [mirror_utimens, utimensatResolve, h]

/-- Witness for C8 at a concrete absolute path, timestamps and a successful
underlying call. -/
theorem mirror_utimens_absolute_direct_witness :
    (mirror_utimens "/a/b" "/cwd" true ((1, 5), (2, 6)) 0 7).1.resolved = some "/a/b" ∧
    (mirror_utimens "/a/b" "/cwd" true ((1, 5), (2, 6)) 0 7).1.times = ((1, 5), (2, 6)) ∧
    ((0 : Int) ≠ -1 → (mirror_utimens "/a/b" "/cwd" true ((1, 5), (2, 6)) 0 7).2 = 0) ∧
    (mirror_utimens "/a/b" "/cwd" true ((1, 5), (2, 6)) (-1) 7).2 = -(7 : Int) :=
  mirror_utimens_absolute_direct "/a/b" "/cwd" ((1, 5), (2, 6)) 0 7

/-! ## Remaining handle-based handlers -/

/-- `mirror_fallocate`: allocates or deallocates disk space on `fi->fh`. -/
def mirror_fallocate (_path : String) (_mode : Nat) (_offset _len : Int)
    (s : Session) (r : Int) (e : Nat) : Int :=
  let _ := s.fh
  if r = -1 then -(e : Int) else 0

/-- `mirror_lock`: POSIX record locking via `fcntl(fi->fh, cmd, lock)`. -/
def mirror_lock (_path : String) (s : Session) (_cmd : Nat) (r : Int) (e : Nat) : Int :=
  let _ := s.fh
  if r = -1 then -(e : Int) else 0

/-- `mirror_flock`: whole-file advisory locking via `flock(fi->fh, op)`. -/
def mirror_flock (_path : String) (s : Session) (_op : Nat) (r : Int) (e : Nat) : Int :=
  let _ := s.fh
  if r = -1 then -(e : Int) else 0

/-- `mirror_fsync`: `fdatasync(fi->fh)` when `datasync` is nonzero, else
`fsync(fi->fh)`; `rData`/`rFull` are the two calls' respective results. -/
def mirror_fsync (_path : String) (datasync : Nat) (s : Session)
    (rData rFull : Int) (e : Nat) : Int :=
  let _ := s.fh
  let res := if datasync ≠ 0 then rData else rFull
  if res = -1 then -(e : Int) else 0

/-- `mirror_getxattr`: returns the attribute value size or `-errno`. -/
def mirror_getxattr (_path _name : String) (_size : Nat) (r : Int) (e : Nat) : Int :=
  if r = -1 then -(e : Int) else int32OfInt r

/-- `mirror_listxattr`: returns the attribute list size or `-errno`. -/
def mirror_listxattr (_path : String) (_size : Nat) (r : Int) (e : Nat) : Int :=
  if r = -1 then -(e : Int) else int32OfInt r

/-- `mirror_ioctl`: forwards `ioctl(fi->fh, request, arg)`. -/
def mirror_ioctl (_path : String) (_request : Nat) (s : Session) (r : Int) (e : Nat) : Int :=
  let _ := s.fh
  if r = -1 then -(e : Int) else 0

/-! ## The creat model (C10) -/

def O_RDONLY : Nat := 0
def O_WRONLY : Nat := 1
def O_RDWR : Nat := 2
def O_ACCMODE : Nat := 3
def O_CREAT : Nat := 64
def O_TRUNC : Nat := 512

/-- Modelled from POSIX creat(2), the underlying call of `mirror_create`:
`creat(path, mode)` is equivalent to
`open(path, O_CREAT | O_WRONLY | O_TRUNC, mode)`. -/
def creatFlags : Nat := O_CREAT ||| O_WRONLY ||| O_TRUNC

/-- Modelled from POSIX open(2): the effect on the content of the named
file — when the file already exists and O_TRUNC is set in the flag word,
the content becomes empty (length 0), otherwise it is unchanged. -/
def openContentEffect (existsFile : Bool) (content : List Char) (flags : Nat) :
    List Char :=
  if existsFile && (flags &&& O_TRUNC != 0) then [] else content

/-- Modelled from POSIX open(2): the descriptor permits writing iff the
access-mode bits of the flag word are O_WRONLY or O_RDWR. -/
def allowsWrite (flags : Nat) : Bool :=
  flags &&& O_ACCMODE == O_WRONLY || flags &&& O_ACCMODE == O_RDWR

/-- Modelled from POSIX open(2): the descriptor permits reading iff the
access-mode bits of the flag word are O_RDONLY or O_RDWR. -/
def allowsRead (flags : Nat) : Bool :=
  flags &&& O_ACCMODE == O_RDONLY || flags &&& O_ACCMODE == O_RDWR

/-- C10: `mirror_create` opens via `creat`, whose flag word is
create-plus-truncate, write-only: an existing file's content is truncated
to length 0, and the resulting descriptor permits writing but not reading.
On success (a descriptor `0 ≤ r`, below the `uint64` wrap of -1) the
descriptor is stored as the session's handle and 0 is returned; on failure
(-1) the negated error code is returned. -/
theorem mirror_create_semantics (path : String) (mode : Nat) (s : Session)
    (content : List Char) (e : Nat) (r : Int)
    (h1 : 0 ≤ r) (h2 : r < 2 ^ 31) :
    openContentEffect true content creatFlags = [] ∧
    allowsWrite creatFlags = true ∧
    allowsRead creatFlags = false ∧
    mirror_create path mode s r e = ({ s with fh := r.toNat }, 0) ∧
    (mirror_create path mode s (-1) e).2 = -(e : Int) := by
  refine ⟨by simp [openContentEffect, creatFlags, O_CREAT, O_WRONLY, O_TRUNC],
    by decide, by decide, ?_, by simp [mirror_create]⟩
  have hu : uint64OfInt r = r.toNat := by
    unfold uint64OfInt
    rw [Int.emod_eq_of_lt h1 (by omega)]
  have hm : uint64OfInt (-1) = 2 ^ 64 - 1 := by decide
  have hne : r.toNat ≠ uint64OfInt (-1) := by rw [hm]; omega
  simp [mirror_create, hu, hne]

/-- Witness for C10 at descriptor 3, errno 7, a one-character existing
file. -/
theorem mirror_create_semantics_witness :
    (0 : Int) ≤ 3 ∧ (3 : Int) < 2 ^ 31 ∧
    (openContentEffect true ['x'] creatFlags = [] ∧
     allowsWrite creatFlags = true ∧
     allowsRead creatFlags = false ∧
     mirror_create "/d/f" 420 ⟨0⟩ 3 7 = ({ (⟨0⟩ : Session) with fh := (3 : Int).toNat }, 0) ∧
     (mirror_create "/d/f" 420 ⟨0⟩ (-1) 7).2 = -(7 : Int)) :=
  ⟨by decide, by decide,
   mirror_create_semantics "/d/f" 420 ⟨0⟩ ['x'] 7 3 (by decide) (by decide)⟩

/-! ## The operation table (C9) -/

/-- The operation kinds registered in the `mirror_oper` table of the
source (one per `fuse_operations` slot the program fills). -/
inductive MirrorOp
  | opAccess | opGetattr | opFgetattr | opReadlink | opMknod | opMkdir
  | opUnlink | opRmdir | opLink | opSymlink | opRename | opChmod | opChown
  | opTruncate | opFtruncate | opOpendir | opReleasedir | opReaddir
  | opOpen | opCreate | opRelease | opRead | opWrite | opFallocate
  | opLock | opFlock | opFsync | opGetxattr | opSetxattr | opRemovexattr
  | opListxattr | opIoctl | opStatfs | opUtimens
  deriving DecidableEq, Repr

/-- The `mirror_oper` dispatch: one request delivered to its registered
handler.  `s` is the request's session record (`fuse_file_info`); `p`, `q`
the path/name arguments; `m` a mode/flags/size/command argument; `r` and
`e` the underlying call's result and post-call errno (for `opendir`, the
returned `DIR*` as an unsigned value); `filler`, `buf`, `dirEntries` the
readdir callback, its buffer state and the directory stream; `tv` the
utimens timestamps.  Returns the session record as the handler left it and
the handler's result. -/
def mirror_oper (op : MirrorOp) (s : Session) (p q : String) (m : Nat)
    (r : Int) (e : Nat) (filler : List String → String → List String × Bool)
    (buf : List String) (dirEntries : List String)
    (tv : (Int × Int) × (Int × Int)) : Session × Int :=
  match op with
  | .opAccess => (s, mirror_access p m r e)
  | .opGetattr => (s, mirror_getattr p r e)
  | .opFgetattr => (s, mirror_fgetattr s.fh r e)
  | .opReadlink => (s, mirror_readlink p m r e)
  | .opMknod => (s, mirror_mknod p m 0 r e)
  | .opMkdir => (s, mirror_mkdir p m r e)
  | .opUnlink => (s, mirror_unlink p r e)
  | .opRmdir => (s, mirror_rmdir p r e)
  | .opLink => (s, mirror_link p q r e)
  | .opSymlink => (s, (mirror_symlink p q r e).2)
  | .opRename => (s, mirror_rename p q r e)
  | .opChmod => (s, mirror_chmod p m r e)
  | .opChown => (s, mirror_chown p m m r e)
  | .opTruncate => (s, mirror_truncate p (m : Int) r e)
  | .opFtruncate => (s, mirror_ftruncate s.fh (m : Int) r e)
  | .opOpendir => mirror_opendir p s (uint64OfInt r) e
  | .opReleasedir => (s, mirror_releasedir p s r e)
  | .opReaddir => (s, (mirror_readdir filler buf dirEntries).2.2)
  | .opOpen => mirror_open p m s r e
  | .opCreate => mirror_create p m s r e
  | .opRelease => (s, (mirror_release p s r).ret)
  | .opRead => (s, mirror_read p m m s r)
  | .opWrite => (s, mirror_write p m m s r e)
  | .opFallocate => (s, mirror_fallocate p m 0 0 s r e)
  | .opLock => (s, mirror_lock p s m r e)
  | .opFlock => (s, mirror_flock p s m r e)
  | .opFsync => (s, mirror_fsync p m s r r e)
  | .opGetxattr => (s, mirror_getxattr p q m r e)
  | .opSetxattr => (s, mirror_setxattr p q q m r e)
  | .opRemovexattr => (s, mirror_removexattr p q r e)
  | .opListxattr => (s, mirror_listxattr p m r e)
  | .opIoctl => (s, mirror_ioctl p m s r e)
  | .opStatfs => (s, mirror_statfs p r e)
  | .opUtimens => (s, (mirror_utimens p q true tv r e).2)

/-- C9: every operation other than `open`, `create` and `opendir` leaves
the session record unchanged — none of them writes the handle field, and
the dispatch reads and writes no state other than its own arguments, so
the dispatcher is stateless between requests apart from the
session-scoped handle. -/
theorem mirror_oper_frame (op : MirrorOp) (s : Session) (p q : String) (m : Nat)
    (r : Int) (e : Nat) (filler : List String → String → List String × Bool)
    (buf : List String) (dirEntries : List String)
    (tv : (Int × Int) × (Int × Int))
    (h1 : op ≠ .opOpen) (h2 : op ≠ .opCreate) (h3 : op ≠ .opOpendir) :
    (mirror_oper op s p q m r e filler buf dirEntries tv).1 = s := by
  cases op <;> first
    | rfl
    | exact absurd rfl h1
    | exact absurd rfl h2
    | exact absurd rfl h3

/-- Witness for C9: an `unlink` request leaves a session holding handle 5
untouched. -/
theorem mirror_oper_frame_witness :
    (MirrorOp.opUnlink ≠ MirrorOp.opOpen) ∧
    (MirrorOp.opUnlink ≠ MirrorOp.opCreate) ∧
    (MirrorOp.opUnlink ≠ MirrorOp.opOpendir) ∧
    (mirror_oper .opUnlink ⟨5⟩ "/a" "/b" 0 0 7 (fun l _ => (l, false)) [] []
      ((0, 0), (0, 0))).1 = ⟨5⟩ :=
  ⟨by decide, by decide, by decide,
   mirror_oper_frame .opUnlink ⟨5⟩ "/a" "/b" 0 0 7 (fun l _ => (l, false)) [] []
     ((0, 0), (0, 0)) (by decide) (by decide) (by decide)⟩

end MirrorFS
